import Mathlib

/-!
Verification of the Hive Artifact protocol slice: the artifact schema
(`src/core/framework/schemas/artifact.py`) and the chat REPL widget's
extraction and interaction state machine
(`src/core/framework/tui/widgets/chat_repl.py`).

The Python code is shallowly embedded: pydantic models become Lean
structures with explicit validating parsers, JSON documents become an
inductive tree type, and the stateful widget becomes a pure state
transformer over an explicit state record plus a list of runtime calls.
-/

/-! ### Character constants

Brace and quote characters used by the JSON grammar and by the widget's
brace-matching scan, bound as named constants. -/

/-- The character `{` (code point 123). -/
def braceOpen : Char := Char.ofNat 123

/-- The character `}` (code point 125). -/
def braceClose : Char := Char.ofNat 125

/-- The double-quote character (code point 34). -/
def dquote : Char := Char.ofNat 34

/-- The single-quote character (code point 39). -/
def squote : Char := Char.ofNat 39

/-- The backslash character (code point 92). -/
def bslash : Char := Char.ofNat 92

/-! ### JSON documents

A model of the values produced by Python's `json.loads`: `None`, `bool`,
`int`, `str`, `list` and `dict`. JSON numbers are modelled as integers
only; none of the repository's payloads use floats. A `dict` is an
insertion-ordered association list, as in CPython. -/

/-- A JSON document as decoded by Python's `json` module. -/
inductive JsonVal where
  | null
  | bool (b : Bool)
  | num (n : Int)
  | str (s : String)
  | arr (elems : List JsonVal)
  | obj (fields : List (String × JsonVal))

/-- Insert a key into an insertion-ordered dict, mirroring CPython dict
assignment: an existing key keeps its position and its value is replaced,
a new key is appended. -/
def objInsert : List (String × JsonVal) → String → JsonVal → List (String × JsonVal)
  | [], k, v => [(k, v)]
  | (k0, v0) :: rest, k, v =>
      if k0 = k then (k0, v) :: rest else (k0, v0) :: objInsert rest k v

/-- Look a key up in a dict's field list (first match; the lists built by
`jsonLoads` and by the serializers have unique keys). -/
def lookupField : List (String × JsonVal) → String → Option JsonVal
  | [], _ => none
  | (k, v) :: rest, key => if k = key then some v else lookupField rest key

/-- Python `dict.get` on a decoded JSON value: `none` when the value is
not an object or the key is absent (a non-dict receiver raises in Python;
at the one call site the exception is caught and mapped to `None`). -/
def objGet (j : JsonVal) (k : String) : Option JsonVal :=
  match j with
  | JsonVal.obj fs => lookupField fs k
  | _ => none

/-! ### A model of `json.loads`

A recursive-descent parser for the JSON grammar as accepted by the
Python standard library, restricted to the constructs the repository's
payloads use: integer numbers (floats and exponents are rejected rather
than mis-read) and the single-character string escapes (`\u` escapes are
rejected). Recursion is bounded by an explicit fuel argument; `jsonLoads`
supplies fuel exceeding any possible nesting depth of its input. -/

/-- JSON insignificant whitespace. -/
def jsonWs (c : Char) : Bool :=
  c = ' ' || c = '\t' || c = '\n' || c = '\r'

/-- Drop leading JSON whitespace. -/
def skipWs : List Char → List Char
  | [] => []
  | c :: cs => if jsonWs c then skipWs cs else c :: cs

/-- Consume an exact character sequence, returning the remainder. -/
def dropExact : List Char → List Char → Option (List Char)
  | [], cs => some cs
  | _ :: _, [] => none
  | e :: es, c :: cs => if c = e then dropExact es cs else none

/-- Split off a maximal run of leading decimal digits. -/
def takeDigits : List Char → List Char × List Char
  | [] => ([], [])
  | c :: rest =>
      if c.isDigit then
        let p := takeDigits rest
        (c :: p.1, p.2)
      else ([], c :: rest)

/-- Numeric value of a digit run. -/
def digitsVal (ds : List Char) : Nat :=
  ds.foldl (fun a c => a * 10 + (c.toNat - 48)) 0

/-- True when the next character would continue a float or exponent,
which this integer-only model rejects. -/
def floatFollows : List Char → Bool
  | [] => false
  | c :: _ => c = '.' || c = 'e' || c = 'E'

/-- Decode a single-character JSON string escape. -/
def jsonEsc (c : Char) : Option Char :=
  if c = dquote then some dquote
  else if c = bslash then some bslash
  else if c = '/' then some '/'
  else if c = 'n' then some '\n'
  else if c = 't' then some '\t'
  else if c = 'r' then some '\r'
  else if c = 'b' then some (Char.ofNat 8)
  else if c = 'f' then some (Char.ofNat 12)
  else none

mutual

/-- Parse one JSON value starting at the head of the input (leading
whitespace allowed), returning it with the unconsumed remainder. -/
def jsonParseValue : Nat → List Char → Option (JsonVal × List Char)
  | 0, _ => none
  | fuel + 1, cs =>
    match skipWs cs with
    | [] => none
    | c :: rest =>
      if c = dquote then
        match jsonParseString fuel rest [] with
        | some (s, r) => some (JsonVal.str s, r)
        | none => none
      else if c = braceOpen then
        match skipWs rest with
        | c2 :: r2 =>
          if c2 = braceClose then some (JsonVal.obj [], r2)
          else jsonParseMembers fuel (c2 :: r2) []
        | [] => none
      else if c = '[' then
        match skipWs rest with
        | c2 :: r2 =>
          if c2 = ']' then some (JsonVal.arr [], r2)
          else jsonParseElems fuel (c2 :: r2) []
        | [] => none
      else if c = 't' then
        match dropExact ['r', 'u', 'e'] rest with
        | some r => some (JsonVal.bool true, r)
        | none => none
      else if c = 'f' then
        match dropExact ['a', 'l', 's', 'e'] rest with
        | some r => some (JsonVal.bool false, r)
        | none => none
      else if c = 'n' then
        match dropExact ['u', 'l', 'l'] rest with
        | some r => some (JsonVal.null, r)
        | none => none
      else if c = '-' then
        match takeDigits rest with
        | ([], _) => none
        | (ds, r) =>
          if floatFollows r then none
          else some (JsonVal.num (-(digitsVal ds : Int)), r)
      else if c.isDigit then
        match takeDigits (c :: rest) with
        | (ds, r) =>
          if floatFollows r then none
          else some (JsonVal.num (digitsVal ds : Int), r)
      else none

/-- Parse the body of a JSON string after the opening quote. -/
def jsonParseString : Nat → List Char → List Char → Option (String × List Char)
  | 0, _, _ => none
  | _ + 1, [], _ => none
  | fuel + 1, c :: rest, acc =>
    if c = dquote then some (String.mk acc.reverse, rest)
    else if c = bslash then
      match rest with
      | [] => none
      | e :: r2 =>
        match jsonEsc e with
        | some ch => jsonParseString fuel r2 (ch :: acc)
        | none => none
    else jsonParseString fuel rest (c :: acc)

/-- Parse the members of a JSON object, positioned at the first key. -/
def jsonParseMembers : Nat → List Char → List (String × JsonVal) →
    Option (JsonVal × List Char)
  | 0, _, _ => none
  | _ + 1, [], _ => none
  | fuel + 1, c :: rest, acc =>
    if c = dquote then
      match jsonParseString fuel rest [] with
      | some (k, r1) =>
        match skipWs r1 with
        | c2 :: r2 =>
          if c2 = ':' then
            match jsonParseValue fuel r2 with
            | some (v, r3) =>
              let acc2 := objInsert acc k v
              match skipWs r3 with
              | c3 :: r4 =>
                if c3 = ',' then jsonParseMembers fuel (skipWs r4) acc2
                else if c3 = braceClose then some (JsonVal.obj acc2, r4)
                else none
              | [] => none
            | none => none
          else none
        | [] => none
      | none => none
    else none

/-- Parse the elements of a JSON array, positioned at the first element. -/
def jsonParseElems : Nat → List Char → List JsonVal →
    Option (JsonVal × List Char)
  | 0, _, _ => none
  | fuel + 1, cs, acc =>
    match jsonParseValue fuel cs with
    | some (v, r1) =>
      match skipWs r1 with
      | c2 :: r2 =>
        if c2 = ',' then jsonParseElems fuel r2 (v :: acc)
        else if c2 = ']' then some (JsonVal.arr (v :: acc).reverse, r2)
        else none
      | [] => none
    | none => none

end

/-- Model of Python `json.loads`: parse a complete document, rejecting
trailing non-whitespace (as the stdlib does). -/
def jsonLoads (s : String) : Option JsonVal :=
  match jsonParseValue (2 * s.length + 16) s.data with
  | some (v, rest) => if (skipWs rest).isEmpty then some v else none
  | none => none

/-! ### The artifact schema

Embedding of `src/core/framework/schemas/artifact.py`. Each pydantic
model becomes a structure together with a validating parser from
`JsonVal` (the semantics of `Model.model_validate` on a decoded JSON
document) and a serializer to `JsonVal` (the semantics of
`Model.model_dump`, emitting every field in declaration order). All
models carry `model_config = {"extra": "forbid"}`, embedded as a key
whitelist check. The parsers report the first violation where pydantic
collects all of them; only success versus failure is relied on.
`datetime` values are abstracted as opaque strings, and the
`default_factory=datetime.now` defaults are supplied through an explicit
`now` argument. -/

/-- Enum `ArtifactType`: component kinds an agent can emit. -/
inductive ArtifactType where
  | form
  | markdown
  | chart
  | code_sandbox
deriving DecidableEq

/-- String value of an `ArtifactType` member (it is a `StrEnum`). -/
def artifactTypeStr : ArtifactType → String
  | ArtifactType.form => "form"
  | ArtifactType.markdown => "markdown"
  | ArtifactType.chart => "chart"
  | ArtifactType.code_sandbox => "code_sandbox"

/-- Enum `FormFieldType`: kinds of form input fields. -/
inductive FormFieldType where
  | text
  | select
  | checkbox
  | textarea
  | number
deriving DecidableEq

/-- String value of a `FormFieldType` member. -/
def formFieldTypeStr : FormFieldType → String
  | FormFieldType.text => "text"
  | FormFieldType.select => "select"
  | FormFieldType.checkbox => "checkbox"
  | FormFieldType.textarea => "textarea"
  | FormFieldType.number => "number"

/-- A value of the `default` field of `FormField`, whose annotation is
`str | int | bool | None` (the `None` case is `Option.none` outside). -/
inductive FieldDefault where
  | str (s : String)
  | int (n : Int)
  | bool (b : Bool)

/-- Model `FormField`: one form field definition. -/
structure FormField where
  name : String
  type : FormFieldType
  label : String
  options : List String
  required : Bool
  default : Option FieldDefault
  placeholder : Option String
  help_text : Option String

/-- Model `FormComponent`: an interactive form. -/
structure FormComponent where
  title : String
  description : Option String
  fields : List FormField
  submit_label : String
  cancel_label : Option String

/-- Model `MarkdownComponent`: rich text content. -/
structure MarkdownComponent where
  content : String

/-- Model `ChartComponent` (placeholder component). Its `data` field has
type `dict[str, Any]`, embedded as a JSON object's field list. -/
structure ChartComponent where
  chart_type : String
  data : List (String × JsonVal)
  title : Option String

/-- Model `CodeSandboxComponent` (placeholder component). -/
structure CodeSandboxComponent where
  code : String
  language : String
  filename : Option String
  editable : Bool

/-- The payload union of `Artifact.props`:
`FormComponent | MarkdownComponent | ChartComponent | CodeSandboxComponent`.
The source attaches `discriminator="__artifact_component_type__"`, a key
that none of the component models declares, so it cannot select a
variant; the union is embedded as the plain union of the four payload
schemas, tried in declaration order. -/
inductive Props where
  | form (f : FormComponent)
  | markdown (m : MarkdownComponent)
  | chart (c : ChartComponent)
  | code_sandbox (s : CodeSandboxComponent)

/-- Model `Artifact`. The `type` field is `Literal["artifact"]` with
default `"artifact"`; since every value of it is that literal it is not
stored, and the parser and serializer handle it explicitly. -/
structure Artifact where
  id : String
  component : ArtifactType
  props : Props
  timestamp : String
  metadata : List (String × JsonVal)

/-! #### Validation helpers -/

/-- Reject unknown keys, the semantics of `model_config extra: forbid`. -/
def checkKeys (allowed : List String) (fs : List (String × JsonVal)) :
    Except String Unit :=
  if fs.all (fun kv => allowed.contains kv.1) then Except.ok ()
  else Except.error "extra fields not permitted"

/-- Require the value to be a JSON object and return its fields. -/
def asObjFields : JsonVal → Except String (List (String × JsonVal))
  | JsonVal.obj fs => Except.ok fs
  | _ => Except.error "expected an object"

/-- Require a JSON string. -/
def asStr : JsonVal → Except String String
  | JsonVal.str s => Except.ok s
  | _ => Except.error "expected a string"

/-- Require a JSON array. -/
def asArr : JsonVal → Except String (List JsonVal)
  | JsonVal.arr xs => Except.ok xs
  | _ => Except.error "expected an array"

/-- Require a JSON bool. -/
def asBool : JsonVal → Except String Bool
  | JsonVal.bool b => Except.ok b
  | _ => Except.error "expected a bool"

/-- Validate an optional-string field value (`str | None`). -/
def asStrOpt : JsonVal → Except String (Option String)
  | JsonVal.null => Except.ok none
  | JsonVal.str s => Except.ok (some s)
  | _ => Except.error "expected a string or null"

/-- A required field of an object. -/
def reqField (fs : List (String × JsonVal)) (k : String) :
    Except String JsonVal :=
  match lookupField fs k with
  | some v => Except.ok v
  | none => Except.error ("field required: " ++ k)

/-- A required string field. -/
def reqStrField (fs : List (String × JsonVal)) (k : String) :
    Except String String := do
  let v ← reqField fs k
  asStr v

/-- An optional `str | None` field with default `None`. -/
def optStrField (fs : List (String × JsonVal)) (k : String) :
    Except String (Option String) :=
  match lookupField fs k with
  | none => Except.ok none
  | some v => asStrOpt v

/-- Validate each element of a list, failing on the first error. -/
def mapExcept (f : α → Except String β) : List α → Except String (List β)
  | [] => Except.ok []
  | a :: as => do
      let b ← f a
      let bs ← mapExcept f as
      Except.ok (b :: bs)

/-! #### Parsers and serializers -/

/-- Validate a `FormFieldType` enum value (pydantic matches a `StrEnum`
by its string value). -/
def parseFormFieldType : JsonVal → Except String FormFieldType
  | JsonVal.str "text" => Except.ok FormFieldType.text
  | JsonVal.str "select" => Except.ok FormFieldType.select
  | JsonVal.str "checkbox" => Except.ok FormFieldType.checkbox
  | JsonVal.str "textarea" => Except.ok FormFieldType.textarea
  | JsonVal.str "number" => Except.ok FormFieldType.number
  | _ => Except.error "invalid form field type"

/-- Validate an `ArtifactType` enum value. -/
def parseArtifactType : JsonVal → Except String ArtifactType
  | JsonVal.str "form" => Except.ok ArtifactType.form
  | JsonVal.str "markdown" => Except.ok ArtifactType.markdown
  | JsonVal.str "chart" => Except.ok ArtifactType.chart
  | JsonVal.str "code_sandbox" => Except.ok ArtifactType.code_sandbox
  | _ => Except.error "invalid artifact component type"

/-- Validate a `str | int | bool | None` default value. -/
def parseDefaultVal : JsonVal → Except String (Option FieldDefault)
  | JsonVal.null => Except.ok none
  | JsonVal.str s => Except.ok (some (FieldDefault.str s))
  | JsonVal.num n => Except.ok (some (FieldDefault.int n))
  | JsonVal.bool b => Except.ok (some (FieldDefault.bool b))
  | _ => Except.error "invalid default value"

/-- The keys `FormField` declares. -/
def formFieldKeys : List String :=
  ["name", "type", "label", "options", "required", "default",
   "placeholder", "help_text"]

/-- `FormField.model_validate` on a decoded JSON document. Note: the
source declares `options` as merely defaulting to `[]`; no validator
relates it to `type`, so nothing here requires options for selects. -/
def parseFormField (j : JsonVal) : Except String FormField := do
  let fs ← asObjFields j
  let _ ← checkKeys formFieldKeys fs
  let nm ← reqStrField fs "name"
  let tv ← reqField fs "type"
  let ty ← parseFormFieldType tv
  let lb ← reqStrField fs "label"
  let opts ← match lookupField fs "options" with
    | none => Except.ok []
    | some v => do
        let xs ← asArr v
        mapExcept asStr xs
  let rq ← match lookupField fs "required" with
    | none => Except.ok true
    | some v => asBool v
  let df ← match lookupField fs "default" with
    | none => Except.ok none
    | some v => parseDefaultVal v
  let ph ← optStrField fs "placeholder"
  let ht ← optStrField fs "help_text"
  Except.ok
    { name := nm, type := ty, label := lb, options := opts, required := rq,
      default := df, placeholder := ph, help_text := ht }

/-- Serialize an optional string (`None` dumps as JSON `null`). -/
def optStrJson : Option String → JsonVal
  | none => JsonVal.null
  | some s => JsonVal.str s

/-- Serialize a `default` value. -/
def defaultValJson : Option FieldDefault → JsonVal
  | none => JsonVal.null
  | some (FieldDefault.str s) => JsonVal.str s
  | some (FieldDefault.int n) => JsonVal.num n
  | some (FieldDefault.bool b) => JsonVal.bool b

/-- `FormField.model_dump`: every field, in declaration order. -/
def serializeFormField (f : FormField) : JsonVal :=
  JsonVal.obj
    [("name", JsonVal.str f.name),
     ("type", JsonVal.str (formFieldTypeStr f.type)),
     ("label", JsonVal.str f.label),
     ("options", JsonVal.arr (f.options.map JsonVal.str)),
     ("required", JsonVal.bool f.required),
     ("default", defaultValJson f.default),
     ("placeholder", optStrJson f.placeholder),
     ("help_text", optStrJson f.help_text)]

/-- The keys `FormComponent` declares. -/
def formComponentKeys : List String :=
  ["title", "description", "fields", "submit_label", "cancel_label"]

/-- `FormComponent.model_validate`: `fields` carries `min_length=1`. -/
def parseFormComponent (j : JsonVal) : Except String FormComponent := do
  let fs ← asObjFields j
  let _ ← checkKeys formComponentKeys fs
  let ti ← reqStrField fs "title"
  let de ← optStrField fs "description"
  let fv ← reqField fs "fields"
  let fxs ← asArr fv
  let flds ← mapExcept parseFormField fxs
  let _ ← if flds.isEmpty then Except.error "fields must have at least 1 item"
          else Except.ok ()
  let sl ← match lookupField fs "submit_label" with
    | none => Except.ok "Submit"
    | some v => asStr v
  let cl ← optStrField fs "cancel_label"
  Except.ok
    { title := ti, description := de, fields := flds, submit_label := sl,
      cancel_label := cl }

/-- `FormComponent.model_dump`. -/
def serializeFormComponent (f : FormComponent) : JsonVal :=
  JsonVal.obj
    [("title", JsonVal.str f.title),
     ("description", optStrJson f.description),
     ("fields", JsonVal.arr (f.fields.map serializeFormField)),
     ("submit_label", JsonVal.str f.submit_label),
     ("cancel_label", optStrJson f.cancel_label)]

/-- `MarkdownComponent.model_validate`. -/
def parseMarkdownComponent (j : JsonVal) : Except String MarkdownComponent := do
  let fs ← asObjFields j
  let _ ← checkKeys ["content"] fs
  let c ← reqStrField fs "content"
  Except.ok { content := c }

/-- `MarkdownComponent.model_dump`. -/
def serializeMarkdownComponent (m : MarkdownComponent) : JsonVal :=
  JsonVal.obj [("content", JsonVal.str m.content)]

/-- `ChartComponent.model_validate`. -/
def parseChartComponent (j : JsonVal) : Except String ChartComponent := do
  let fs ← asObjFields j
  let _ ← checkKeys ["chart_type", "data", "title"] fs
  let ct ← reqStrField fs "chart_type"
  let dv ← reqField fs "data"
  let d ← asObjFields dv
  let ti ← optStrField fs "title"
  Except.ok { chart_type := ct, data := d, title := ti }

/-- `ChartComponent.model_dump`. -/
def serializeChartComponent (c : ChartComponent) : JsonVal :=
  JsonVal.obj
    [("chart_type", JsonVal.str c.chart_type),
     ("data", JsonVal.obj c.data),
     ("title", optStrJson c.title)]

/-- `CodeSandboxComponent.model_validate`. -/
def parseCodeSandboxComponent (j : JsonVal) :
    Except String CodeSandboxComponent := do
  let fs ← asObjFields j
  let _ ← checkKeys ["code", "language", "filename", "editable"] fs
  let cd ← reqStrField fs "code"
  let lg ← reqStrField fs "language"
  let fn ← optStrField fs "filename"
  let ed ← match lookupField fs "editable" with
    | none => Except.ok false
    | some v => asBool v
  Except.ok { code := cd, language := lg, filename := fn, editable := ed }

/-- `CodeSandboxComponent.model_dump`. -/
def serializeCodeSandboxComponent (s : CodeSandboxComponent) : JsonVal :=
  JsonVal.obj
    [("code", JsonVal.str s.code),
     ("language", JsonVal.str s.language),
     ("filename", optStrJson s.filename),
     ("editable", JsonVal.bool s.editable)]

/-- Validation of the `props` union: the four component schemas are tried
in declaration order and the first success wins (their required-key sets
under `extra: forbid` are pairwise disjoint, so at most one matches). -/
def parseProps (j : JsonVal) : Except String Props :=
  match parseFormComponent j with
  | Except.ok f => Except.ok (Props.form f)
  | Except.error _ =>
    match parseMarkdownComponent j with
    | Except.ok m => Except.ok (Props.markdown m)
    | Except.error _ =>
      match parseChartComponent j with
      | Except.ok c => Except.ok (Props.chart c)
      | Except.error _ =>
        match parseCodeSandboxComponent j with
        | Except.ok s => Except.ok (Props.code_sandbox s)
        | Except.error _ =>
          Except.error "props matched no component schema"

/-- Serialize the `props` union. -/
def serializeProps : Props → JsonVal
  | Props.form f => serializeFormComponent f
  | Props.markdown m => serializeMarkdownComponent m
  | Props.chart c => serializeChartComponent c
  | Props.code_sandbox s => serializeCodeSandboxComponent s

/-- The keys `Artifact` declares. -/
def artifactKeys : List String :=
  ["type", "id", "component", "props", "timestamp", "metadata"]

/-- The `type: Literal["artifact"]` check: a present `type` key must hold
exactly the string `"artifact"`; an absent key takes the default. -/
def checkTypeTag (fs : List (String × JsonVal)) : Except String Unit :=
  match lookupField fs "type" with
  | none => Except.ok ()
  | some (JsonVal.str s) =>
      if s = "artifact" then Except.ok ()
      else Except.error "type must be the literal artifact"
  | some _ => Except.error "type must be the literal artifact"

/-- `Artifact.model_validate` on a decoded JSON document. `now` supplies
the `default_factory=datetime.now` value used when `timestamp` is
absent. -/
def parseArtifact (now : String) (j : JsonVal) : Except String Artifact := do
  let fs ← asObjFields j
  let _ ← checkTypeTag fs
  let _ ← checkKeys artifactKeys fs
  let idv ← reqStrField fs "id"
  let cv ← reqField fs "component"
  let comp ← parseArtifactType cv
  let pv ← reqField fs "props"
  let props ← parseProps pv
  let ts ← match lookupField fs "timestamp" with
    | none => Except.ok now
    | some v => asStr v
  let md ← match lookupField fs "metadata" with
    | none => Except.ok []
    | some v => asObjFields v
  Except.ok
    { id := idv, component := comp, props := props, timestamp := ts,
      metadata := md }

/-- `Artifact.model_dump`: the fixed `type` tag first, then every field
in declaration order. -/
def serializeArtifact (a : Artifact) : JsonVal :=
  JsonVal.obj
    [("type", JsonVal.str "artifact"),
     ("id", JsonVal.str a.id),
     ("component", JsonVal.str (artifactTypeStr a.component)),
     ("props", serializeProps a.props),
     ("timestamp", JsonVal.str a.timestamp),
     ("metadata", JsonVal.obj a.metadata)]

/-- The invariants pydantic's validating constructors enforce on every
`Artifact` that exists at runtime: a form payload has at least one
field. (No constraint ties `component` to the shape of `props`, and none
ties a select field to its `options`; the source declares neither.) -/
def artifactValid (a : Artifact) : Bool :=
  match a.props with
  | Props.form f => !f.fields.isEmpty
  | _ => true

/-! ### The artifact extractor

Embedding of `ChatRepl._try_parse_artifact`: locate a candidate JSON
span by searching for a discriminator-key opening pattern, delimit it by
counting braces, decode it with `json.loads`, check the detection tag
and validate the schema. Any failure after the pre-filter yields `none`
(the Python code catches every exception and falls through to
`return None`). -/

/-- Whether `needle` is a prefix of `hay`. -/
def matchesAt : List Char → List Char → Bool
  | [], _ => true
  | _ :: _, [] => false
  | n :: ns, h :: hs => n = h && matchesAt ns hs

/-- First index at which `needle` occurs in `hay`, the semantics of
Python `str.find` (indices are code points, as Python strings are). -/
def findSub (needle : List Char) : List Char → Nat → Option Nat
  | [], i => if matchesAt needle [] then some i else none
  | c :: rest, i =>
      if matchesAt needle (c :: rest) then some i
      else findSub needle rest (i + 1)

/-- Python `haystack.find(needle)` as an `Option`al index. -/
def strFind (hay needle : String) : Option Nat :=
  findSub needle.data hay.data 0

/-- Python `needle in haystack`. -/
def containsSub (hay needle : String) : Bool :=
  (strFind hay needle).isSome

/-- Python `str.lower`, restricted to the ASCII case mapping (the only
case the repository's detection substring exercises). -/
def toLowerStr (s : String) : String :=
  String.mk (s.data.map Char.toLower)

/-- The double-quoted candidate pattern the extractor searches for. -/
def needleDq : String :=
  String.mk [braceOpen, dquote, 't', 'y', 'p', 'e', dquote, ':']

/-- The single-quoted candidate pattern. -/
def needleSq : String :=
  String.mk [braceOpen, squote, 't', 'y', 'p', 'e', squote, ':']

/-- The extractor's brace-depth scan from the candidate start: walk
forward counting `{` up and `}` down, answering the index one past the
character where the depth first returns to zero; `none` when the depth
never returns to zero before end-of-text (the source leaves
`end_idx == start_idx` and returns `None`). As in the source, braces
inside string literals are not exempted. -/
def braceScan : List Char → Int → Nat → Option Nat
  | [], _, _ => none
  | c :: rest, depth, i =>
      if c = braceOpen then braceScan rest (depth + 1) (i + 1)
      else if c = braceClose then
        if depth - 1 = 0 then some (i + 1)
        else braceScan rest (depth - 1) (i + 1)
      else braceScan rest depth (i + 1)

/-- Python slice `text[start:stop]`. -/
def strSlice (text : String) (start stop : Nat) : String :=
  String.mk ((text.data.drop start).take (stop - start))

/-- `ChatRepl._try_parse_artifact(text)`. `now` supplies the timestamp
default used when the payload omits `timestamp`. -/
def tryParseArtifact (now : String) (text : String) : Option Artifact :=
  if text = "" then none
  else if !(containsSub (toLowerStr text) "artifact") then none
  else
    let start? :=
      match strFind text needleDq with
      | some i => some i
      | none => strFind text needleSq
    match start? with
    | none => none
    | some start =>
      match braceScan (text.data.drop start) 0 start with
      | none => none
      | some stop =>
        let jsonStr := strSlice text start stop
        match jsonLoads jsonStr with
        | none => none
        | some data =>
          match objGet data "type" with
          | some (JsonVal.str s) =>
            if s = "artifact" then
              match parseArtifact now data with
              | Except.ok a => some a
              | Except.error _ => none
            else none
          | _ => none

/-! ### The chat REPL widget

Embedding of the `ChatRepl` widget's interaction state and its input
and event handlers. The widget's mutable fields plus the parts of the
UI the specification's Interaction State tracks (the history log, the
input box) become one state record; each handler becomes a pure state
transformer, with the calls it issues to the external runtime collected
in a list. Purely decorative output (the processing-indicator text,
Rich markup, box drawing) is abstracted: each `_write_history` call
site becomes one tagged history entry carrying its payload. -/

/-- One appended chat-history entry, tagged by the call site that wrote
it. -/
inductive HistLine where
  | you (text : String)
  | agent (text : String)
  | busy
  | errorLine (text : String)
  | sep
  | artifactEmitted (c : ArtifactType)
  | markdownBlock (content : String)
  | unsupported (c : ArtifactType)
  | formBox (f : FormComponent)

/-- The widget's session state: its instance fields (`_current_exec_id`,
`_streaming_snapshot`, `_waiting_for_input`, `_input_node_id`,
`_active_artifact`) plus the input box and history log. -/
structure ReplState where
  current_exec_id : Option String
  streaming_snapshot : String
  waiting_for_input : Bool
  input_node_id : Option String
  active_artifact : Option Artifact
  input_disabled : Bool
  input_value : String
  history : List HistLine

/-- A call the widget dispatches to the external `AgentRuntime`. -/
inductive RuntimeCall where
  | trigger (entryPointId : String) (inputKey : String) (value : String)
  | injectInput (nodeId : String) (value : String)

/-- An entry point of the external execution graph. -/
structure EntryPoint where
  id : String
  entry_node : String

/-- The part of a graph node the widget reads. -/
structure NodeInfo where
  input_keys : List String

/-- The external collaborators `on_input_submitted` consults: the
runtime's entry points and graph, and the execution id its `trigger`
call returns. -/
structure RuntimeEnv where
  entry_points : List EntryPoint
  get_node : String → Option NodeInfo
  new_exec_id : String

/-- Python `str.strip` (ASCII whitespace; the Unicode extras Python
also strips are not exercised here). -/
def pySpace (c : Char) : Bool :=
  c = ' ' || c = '\t' || c = '\n' || c = '\r' || c = '\x0b' || c = '\x0c'

/-- Python `str.strip()`. -/
def pyStrip (s : String) : String :=
  String.mk (((s.data.dropWhile pySpace).reverse.dropWhile pySpace).reverse)

/-- Python truthiness of the `_input_node_id` field: neither `None` nor
the empty string. -/
def optTruthy : Option String → Bool
  | none => false
  | some s => s ≠ ""

/-- `ChatRepl.on_input_submitted`: either a complete no-op on blank
input, a routed `inject_input` while waiting for input, a busy notice
while an execution is in flight, or a new `trigger` from idle. The
exception handlers around the runtime calls are not modelled (no claim
concerns a raising runtime). -/
def onInputSubmitted (env : RuntimeEnv) (st : ReplState) (raw : String) :
    ReplState × List RuntimeCall :=
  let user_input := pyStrip raw
  if user_input = "" then (st, [])
  else if st.waiting_for_input && optTruthy st.input_node_id then
    let nid := st.input_node_id.getD ""
    ({ st with
        history := st.history ++ [HistLine.you user_input],
        input_value := "",
        input_disabled := true,
        waiting_for_input := false,
        input_node_id := none },
     [RuntimeCall.injectInput nid user_input])
  else
    match st.current_exec_id with
    | some _ => ({ st with history := st.history ++ [HistLine.busy] }, [])
    | none =>
      let st1 := { st with
        history := st.history ++ [HistLine.you user_input],
        input_value := "" }
      match env.entry_points with
      | [] =>
        ({ st1 with
            history := st1.history ++ [HistLine.errorLine "No entry points"] },
         [])
      | ep :: _ =>
        let input_key :=
          match env.get_node ep.entry_node with
          | some n =>
            match n.input_keys with
            | k :: _ => k
            | [] => "input"
          | none => "input"
        ({ st1 with
            streaming_snapshot := "",
            input_disabled := true,
            current_exec_id := some env.new_exec_id },
         [RuntimeCall.trigger ep.id input_key user_input])

/-- `ChatRepl.handle_text_delta`: record the runtime-supplied running
snapshot. -/
def handleTextDelta (st : ReplState) (snapshot : String) : ReplState :=
  { st with streaming_snapshot := snapshot }

/-- `ChatRepl._render_form_artifact`: remember the active artifact,
write the form to history, and flag the next submission for routing to
the `"artifact_form"` sentinel. When `props` is not a form payload the
source raises `AttributeError` at `form.title`; that path is unreached
by the properties below and is embedded as the same state flags without
the form history entry. -/
def renderFormArtifact (a : Artifact) (st : ReplState) : ReplState :=
  match a.props with
  | Props.form f =>
      { st with
          active_artifact := some a,
          history := st.history ++ [HistLine.formBox f],
          waiting_for_input := true,
          input_node_id := some "artifact_form" }
  | _ =>
      { st with
          active_artifact := some a,
          waiting_for_input := true,
          input_node_id := some "artifact_form" }

/-- `ChatRepl._render_markdown_artifact`. As above, a non-markdown
payload would raise in the source at `artifact.props.content` and is
unreached here. -/
def renderMarkdownArtifact (a : Artifact) (st : ReplState) : ReplState :=
  match a.props with
  | Props.markdown m =>
      { st with history := st.history ++ [HistLine.markdownBlock m.content] }
  | _ => st

/-- `ChatRepl._render_artifact`: dispatch on the component tag. -/
def renderArtifact (a : Artifact) (st : ReplState) : ReplState :=
  let st1 := { st with
    history := st.history ++ [HistLine.artifactEmitted a.component] }
  if a.component = ArtifactType.form then renderFormArtifact a st1
  else if a.component = ArtifactType.markdown then renderMarkdownArtifact a st1
  else { st1 with history := st1.history ++ [HistLine.unsupported a.component] }

/-- `ChatRepl.handle_execution_completed`. `outputString` is the
`output_string` entry of the output payload when present, and
`outputRepr` is Python's `str()` rendering of the whole payload, used
as the display fallback when that entry is absent. After the optional
artifact render, the handler unconditionally resets the execution
fields — including the waiting flags — and re-enables the input box. -/
def handleExecutionCompleted (now : String) (outputString : Option String)
    (outputRepr : String) (st : ReplState) : ReplState :=
  let textToParse :=
    if st.streaming_snapshot ≠ "" then st.streaming_snapshot
    else outputString.getD ""
  let st1 :=
    match tryParseArtifact now textToParse with
    | some a => renderArtifact a st
    | none =>
      if st.streaming_snapshot ≠ "" then
        { st with history := st.history ++ [HistLine.agent st.streaming_snapshot] }
      else
        { st with
            history := st.history ++ [HistLine.agent (outputString.getD outputRepr)] }
  { st1 with
      history := st1.history ++ [HistLine.sep],
      current_exec_id := none,
      streaming_snapshot := "",
      waiting_for_input := false,
      input_node_id := none,
      input_disabled := false }

/-- `ChatRepl.handle_execution_failed`. -/
def handleExecutionFailed (st : ReplState) (error : String) : ReplState :=
  { st with
      history := st.history ++ [HistLine.errorLine error, HistLine.sep],
      current_exec_id := none,
      streaming_snapshot := "",
      waiting_for_input := false,
      input_node_id := none,
      input_disabled := false }

/-- `ChatRepl.handle_input_requested`: flush any accumulated streaming
text as a finalized agent line, then enter the waiting-for-input state.
The route target is stored through `node_id or None`, so an empty node
id is stored as absent. -/
def handleInputRequested (st : ReplState) (nodeId : String) : ReplState :=
  let st1 :=
    if st.streaming_snapshot ≠ "" then
      { st with
          history := st.history ++ [HistLine.agent st.streaming_snapshot],
          streaming_snapshot := "" }
    else st
  { st1 with
      waiting_for_input := true,
      input_node_id := if nodeId = "" then none else some nodeId,
      input_disabled := false }

/-! ### Concrete sample values

Inputs used to evaluate the embedded code at specific points: sample
artifacts, scenario texts (the specification's end-to-end scenario 2
payload, carried under the code's actual `type` tag), and widget
states. -/

/-- Whether a validation succeeded. -/
def exceptOk : Except String α → Bool
  | Except.ok _ => true
  | Except.error _ => false

/-- The payload-shape invariant a `Props` value satisfies after pydantic
validation: a form payload has at least one field. -/
def propsValid : Props → Bool
  | Props.form f => !f.fields.isEmpty
  | _ => true

/-- A markdown artifact as `Artifact.create_markdown` builds it. -/
def sampleMd : Artifact :=
  { id := "m1", component := ArtifactType.markdown,
    props := Props.markdown { content := "hello" },
    timestamp := "t1", metadata := [] }

/-- A one-field confirmation form artifact, the value carried by
`formArtifactText`. -/
def sampleFormArtifact : Artifact :=
  { id := "f1", component := ArtifactType.form,
    props := Props.form
      { title := "Confirm", description := none,
        fields := [{ name := "ok", type := FormFieldType.checkbox,
                     label := "OK", options := [], required := true,
                     default := none, placeholder := none,
                     help_text := none }],
        submit_label := "Submit", cancel_label := none },
    timestamp := "t0", metadata := [] }

/-- Agent output embedding a valid form artifact between prose. -/
def formArtifactText : String :=
  "Here you go: \x7b\"type\": \"artifact\", \"id\": \"f1\", \"component\": \"form\", \"props\": \x7b\"title\": \"Confirm\", \"fields\": [\x7b\"name\": \"ok\", \"type\": \"checkbox\", \"label\": \"OK\"\x7d]\x7d\x7d thanks"

/-- Text whose located, brace-balanced candidate span fails JSON
parsing (an unquoted token). -/
def malformedSpanText : String :=
  "an artifact: \x7b\"type\": oops\x7d end"

/-- Text whose located candidate span decodes as JSON but fails schema
validation (unknown component enum value). -/
def schemaInvalidText : String :=
  "an artifact: \x7b\"type\": \"artifact\", \"id\": \"x\", \"component\": \"fancy\", \"props\": \x7b\"content\": \"hi\"\x7d\x7d"

/-- A select field with an empty options list, as a decoded JSON
document. -/
def selectEmptyOptionsJson : JsonVal :=
  JsonVal.obj
    [("name", JsonVal.str "env"), ("type", JsonVal.str "select"),
     ("label", JsonVal.str "Env"), ("options", JsonVal.arr [])]

/-- The `FormField` value the code produces from
`selectEmptyOptionsJson`. -/
def selectEmptyOptionsField : FormField :=
  { name := "env", type := FormFieldType.select, label := "Env",
    options := [], required := true, default := none, placeholder := none,
    help_text := none }

/-- An artifact document whose `component` says markdown while its
`props` payload has the form shape. -/
def mismatchJson : JsonVal :=
  JsonVal.obj
    [("type", JsonVal.str "artifact"), ("id", JsonVal.str "x1"),
     ("component", JsonVal.str "markdown"),
     ("props",
      JsonVal.obj
        [("title", JsonVal.str "T"),
         ("fields",
          JsonVal.arr
            [JsonVal.obj
              [("name", JsonVal.str "ok"), ("type", JsonVal.str "checkbox"),
               ("label", JsonVal.str "OK")]])])]

/-- The value `mismatchJson` validates to: markdown component tag over a
form payload. -/
def mismatchArtifact : Artifact :=
  { id := "x1", component := ArtifactType.markdown,
    props := Props.form
      { title := "T", description := none,
        fields := [{ name := "ok", type := FormFieldType.checkbox,
                     label := "OK", options := [], required := true,
                     default := none, placeholder := none,
                     help_text := none }],
        submit_label := "Submit", cancel_label := none },
    timestamp := "t0", metadata := [] }

/-- An artifact-shaped document carrying the discriminator under a
`kind` key instead of `type`. -/
def kindKeyedJson : JsonVal :=
  JsonVal.obj
    [("kind", JsonVal.str "artifact"), ("id", JsonVal.str "m1"),
     ("component", JsonVal.str "markdown"),
     ("props", JsonVal.obj [("content", JsonVal.str "hello")])]

/-- An artifact document whose `type` key holds the wrong literal. -/
def wrongTypeJson : JsonVal :=
  JsonVal.obj
    [("type", JsonVal.str "oops"), ("id", JsonVal.str "m1"),
     ("component", JsonVal.str "markdown"),
     ("props", JsonVal.obj [("content", JsonVal.str "hello")])]

/-- A freshly mounted widget: nothing in flight. -/
def stIdle : ReplState :=
  { current_exec_id := none, streaming_snapshot := "",
    waiting_for_input := false, input_node_id := none,
    active_artifact := none, input_disabled := false, input_value := "",
    history := [] }

/-- A widget with one execution in flight and no input request pending. -/
def stBusy : ReplState :=
  { current_exec_id := some "e1", streaming_snapshot := "",
    waiting_for_input := false, input_node_id := none,
    active_artifact := none, input_disabled := true, input_value := "",
    history := [] }

/-- A widget whose in-flight execution has streamed
`formArtifactText`, just before its completion event is handled. -/
def stStreamDone : ReplState :=
  { current_exec_id := some "e1", streaming_snapshot := formArtifactText,
    waiting_for_input := false, input_node_id := none,
    active_artifact := none, input_disabled := true, input_value := "",
    history := [] }

/-- A runtime with a single entry point, shaped like the artifact
demo's graph. -/
def demoEnv : RuntimeEnv :=
  { entry_points := [{ id := "main", entry_node := "welcome" }],
    get_node := fun n =>
      if n = "welcome" then some { input_keys := ["user_input"] } else none,
    new_exec_id := "e2" }

/-! ### Helper lemmas -/

/-- Bind on a successful validation step reduces to its continuation. -/
theorem exceptBindOk (a : α) (f : α → Except String β) :
    (Except.ok a : Except String α) >>= f = f a := rfl

/-- Bind on a failed validation step propagates the error. -/
theorem exceptBindErr (e : String) (f : α → Except String β) :
    (Except.error e : Except String α) >>= f = Except.error e := rfl

/-- Enum round-trip for `FormFieldType`. -/
theorem parseFormFieldType_rt (t : FormFieldType) :
    parseFormFieldType (JsonVal.str (formFieldTypeStr t)) = Except.ok t := by
  cases t <;> rfl

/-- Enum round-trip for `ArtifactType`. -/
theorem parseArtifactType_rt (c : ArtifactType) :
    parseArtifactType (JsonVal.str (artifactTypeStr c)) = Except.ok c := by
  cases c <;> rfl

/-- Round-trip for `default` values. -/
theorem parseDefaultVal_rt (d : Option FieldDefault) :
    parseDefaultVal (defaultValJson d) = Except.ok d := by
  rcases d with _ | (s | n | b) <;> rfl

/-- Round-trip for optional strings. -/
theorem asStrOpt_rt (o : Option String) :
    asStrOpt (optStrJson o) = Except.ok o := by
  rcases o with _ | s <;> rfl

/-- Validating a serialized string list recovers it. -/
theorem mapExcept_str (xs : List String) :
    mapExcept asStr (xs.map JsonVal.str) = Except.ok xs := by
  induction xs with
  | nil => rfl
  | cons x xs ih => simp [mapExcept, List.map, asStr, ih, exceptBindOk]

/-- Round-trip for one form field. -/
theorem parseFormField_rt (f : FormField) :
    parseFormField (serializeFormField f) = Except.ok f := by
  obtain ⟨nm, ty, lb, opts, rq, df, ph, ht⟩ := f
  simp [parseFormField, serializeFormField, checkKeys, lookupField, reqField,
    reqStrField, optStrField, asObjFields, asStr, asArr, asBool,
    parseFormFieldType_rt, parseDefaultVal_rt, asStrOpt_rt, mapExcept_str,
    exceptBindOk, formFieldKeys]

/-- Round-trip for a serialized field list. -/
theorem mapExcept_formFields (fs : List FormField) :
    mapExcept parseFormField (fs.map serializeFormField) = Except.ok fs := by
  induction fs with
  | nil => rfl
  | cons f fs ih => simp [mapExcept, List.map, parseFormField_rt, ih, exceptBindOk]

/-- Round-trip for a form payload with at least one field. -/
theorem parseFormComponent_rt (f : FormComponent)
    (h : f.fields.isEmpty = false) :
    parseFormComponent (serializeFormComponent f) = Except.ok f := by
  obtain ⟨ti, de, flds, sl, cl⟩ := f
  simp [parseFormComponent, serializeFormComponent, checkKeys, lookupField,
    reqField, reqStrField, optStrField, asObjFields, asStr, asArr,
    mapExcept_formFields, asStrOpt_rt, exceptBindOk, formComponentKeys, h]

/-- Round-trip for a markdown payload. -/
theorem parseMarkdownComponent_rt (m : MarkdownComponent) :
    parseMarkdownComponent (serializeMarkdownComponent m) = Except.ok m := by
  rfl

/-- Round-trip for a chart payload. -/
theorem parseChartComponent_rt (c : ChartComponent) :
    parseChartComponent (serializeChartComponent c) = Except.ok c := by
  obtain ⟨ct, d, ti⟩ := c
  simp [parseChartComponent, serializeChartComponent, checkKeys, lookupField,
    reqField, reqStrField, optStrField, asObjFields, asStr, asStrOpt_rt,
    exceptBindOk]

/-- Round-trip for a code-sandbox payload. -/
theorem parseCodeSandboxComponent_rt (s : CodeSandboxComponent) :
    parseCodeSandboxComponent (serializeCodeSandboxComponent s) = Except.ok s := by
  obtain ⟨cd, lg, fn, ed⟩ := s
  simp [parseCodeSandboxComponent, serializeCodeSandboxComponent, checkKeys,
    lookupField, reqField, reqStrField, optStrField, asObjFields, asStr,
    asBool, asStrOpt_rt, exceptBindOk]

/-- The form schema rejects a serialized markdown payload (its `content`
key is not permitted), so union order cannot capture it. -/
theorem formRejectsMdShape (m : MarkdownComponent) :
    parseFormComponent (serializeMarkdownComponent m) =
      Except.error "extra fields not permitted" := by rfl

/-- The form schema rejects a serialized chart payload. -/
theorem formRejectsChartShape (c : ChartComponent) :
    parseFormComponent (serializeChartComponent c) =
      Except.error "extra fields not permitted" := by rfl

/-- The form schema rejects a serialized code-sandbox payload. -/
theorem formRejectsSandboxShape (s : CodeSandboxComponent) :
    parseFormComponent (serializeCodeSandboxComponent s) =
      Except.error "extra fields not permitted" := by rfl

/-- The markdown schema rejects a serialized chart payload. -/
theorem mdRejectsChartShape (c : ChartComponent) :
    parseMarkdownComponent (serializeChartComponent c) =
      Except.error "extra fields not permitted" := by rfl

/-- The markdown schema rejects a serialized code-sandbox payload. -/
theorem mdRejectsSandboxShape (s : CodeSandboxComponent) :
    parseMarkdownComponent (serializeCodeSandboxComponent s) =
      Except.error "extra fields not permitted" := by rfl

/-- The chart schema rejects a serialized code-sandbox payload. -/
theorem chartRejectsSandboxShape (s : CodeSandboxComponent) :
    parseChartComponent (serializeCodeSandboxComponent s) =
      Except.error "extra fields not permitted" := by rfl

/-- Round-trip for the props union: each serialized payload is recovered
by exactly its own schema. -/
theorem parseProps_rt (p : Props) (h : propsValid p = true) :
    parseProps (serializeProps p) = Except.ok p := by
  cases p with
  | form f =>
      have h2 : f.fields.isEmpty = false := by
        simpa [propsValid] using h
      simp [parseProps, serializeProps, parseFormComponent_rt f h2]
  | markdown m =>
      simp [parseProps, serializeProps, formRejectsMdShape,
        parseMarkdownComponent_rt]
  | chart c =>
      simp [parseProps, serializeProps, formRejectsChartShape,
        mdRejectsChartShape, parseChartComponent_rt]
  | code_sandbox s =>
      simp [parseProps, serializeProps, formRejectsSandboxShape,
        mdRejectsSandboxShape, chartRejectsSandboxShape,
        parseCodeSandboxComponent_rt]

/-! ### The claims -/

/-- Claim C1, counterexample. The claim says the wire serialization of
an Artifact contains a discriminator field named `kind` and that
validation requires a `kind` field equal to `"artifact"`. On the code,
the serialization of a valid artifact has no `kind` member at all, and
an object that does carry `kind = "artifact"` (in place of `type`)
fails validation, because `kind` is an unknown key under
`extra: forbid`. -/
theorem c1_kind_field_absent :
    objGet (serializeArtifact sampleMd) "kind" = none ∧
    exceptOk (parseArtifact "t0" kindKeyedJson) = false := by
  exact ⟨rfl, rfl⟩

/-- Claim C1, amended: the detection discriminator field is named
`type`, not `kind`. Every serialized Artifact carries `type` equal to
the literal `"artifact"`, and validating an untrusted JSON object whose
`type` member holds any other value fails. -/
theorem c1_type_is_the_discriminator :
    (∀ a : Artifact,
        objGet (serializeArtifact a) "type" = some (JsonVal.str "artifact")) ∧
    (∀ (now : String) (j v : JsonVal),
        objGet j "type" = some v → v ≠ JsonVal.str "artifact" →
        exceptOk (parseArtifact now j) = false) := by
  constructor
  · intro a
    rfl
  · intro now j v hget hne
    cases j <;> simp only [objGet] at hget <;>
      try exact Option.noConfusion hget
    case obj fs =>
    have hct : ∃ e, checkTypeTag fs = Except.error e := by
      unfold checkTypeTag
      rw [hget]
      cases v with
      | str s =>
          have hs : s ≠ "artifact" := by
            intro hcontra
            exact hne (by rw [hcontra])
          exact ⟨"type must be the literal artifact", by simp [hs]⟩
      | null => exact ⟨_, rfl⟩
      | bool b => exact ⟨_, rfl⟩
      | num n => exact ⟨_, rfl⟩
      | arr xs => exact ⟨_, rfl⟩
      | obj fs2 => exact ⟨_, rfl⟩
    obtain ⟨e, he⟩ := hct
    simp [parseArtifact, exceptOk, he, asObjFields, exceptBindOk,
      exceptBindErr]

/-- Witness for C1's amended theorem at a concrete artifact and a
concrete object whose `type` holds the wrong literal. -/
theorem c1_type_is_the_discriminator_witness :
    objGet (serializeArtifact sampleMd) "type" = some (JsonVal.str "artifact") ∧
    exceptOk (parseArtifact "t0" wrongTypeJson) = false := by
  refine ⟨c1_type_is_the_discriminator.1 sampleMd,
    c1_type_is_the_discriminator.2 "t0" wrongTypeJson (JsonVal.str "oops")
      rfl ?_⟩
  intro hcontra
  exact absurd (JsonVal.str.inj hcontra) (by decide)

set_option maxRecDepth 8000

/-- Claim C2: the code contradicts it. When an execution-completed
event's accumulated text holds a valid form artifact, the claim (and
the specification) require the session to end in awaiting-structured-
input with the artifact-form sentinel as route target. On the code,
`_render_form_artifact` does set `_waiting_for_input` and the
`"artifact_form"` sentinel, but `handle_execution_completed` then
unconditionally resets both, so the handler leaves the session not
waiting, with no route target, and the next submission is dispatched as
a fresh `trigger`, not `inject_input`. -/
theorem c2_completion_clears_form_waiting_state :
    tryParseArtifact "t0" stStreamDone.streaming_snapshot =
      some sampleFormArtifact ∧
    sampleFormArtifact.component = ArtifactType.form ∧
    (renderFormArtifact sampleFormArtifact stStreamDone).waiting_for_input
      = true ∧
    (renderFormArtifact sampleFormArtifact stStreamDone).input_node_id
      = some "artifact_form" ∧
    (handleExecutionCompleted "t0" (some "") "" stStreamDone).waiting_for_input
      = false ∧
    (handleExecutionCompleted "t0" (some "") "" stStreamDone).input_node_id
      = none ∧
    (onInputSubmitted demoEnv
        (handleExecutionCompleted "t0" (some "") "" stStreamDone)
        "\x7b\"ok\": true\x7d").2
      = [RuntimeCall.trigger "main" "user_input" "\x7b\"ok\": true\x7d"] := by
  exact ⟨rfl, rfl, rfl, rfl, rfl, rfl, rfl⟩

/-- Claim C3: serialization round-trips. For every Artifact satisfying
the constructor-enforced invariant (a form payload has at least one
field), validating its serialization recovers the identical value in
every field. -/
theorem c3_serialize_parse_roundtrip (now : String) (a : Artifact)
    (h : artifactValid a = true) :
    parseArtifact now (serializeArtifact a) = Except.ok a := by
  obtain ⟨idv, comp, props, ts, md⟩ := a
  have hp : propsValid props = true := by
    cases props <;> simp_all [artifactValid, propsValid]
  simp [parseArtifact, serializeArtifact, checkTypeTag, checkKeys,
    artifactKeys, lookupField, reqField, reqStrField, asObjFields, asStr,
    parseArtifactType_rt, parseProps_rt props hp, exceptBindOk]

/-- Witness for C3 at a concrete form artifact. -/
theorem c3_serialize_parse_roundtrip_witness :
    artifactValid sampleFormArtifact = true ∧
    parseArtifact "zz" (serializeArtifact sampleFormArtifact) =
      Except.ok sampleFormArtifact := by
  exact ⟨rfl, c3_serialize_parse_roundtrip "zz" sampleFormArtifact rfl⟩

/-- Claim C4: the code contradicts it. The claim (and the `options`
field's own description, "required if type=select") say a select field
with an empty options list must fail validation; the source declares no
validator relating `options` to `type`, so the value is accepted. -/
theorem c4_select_with_no_options_validates :
    parseFormField selectEmptyOptionsJson =
      Except.ok selectEmptyOptionsField ∧
    selectEmptyOptionsField.type = FormFieldType.select ∧
    selectEmptyOptionsField.options = [] := by
  exact ⟨rfl, rfl, rfl⟩

/-- Claim C5: the code contradicts it. The claim says a `component`
tag whose `props` payload matches only a different variant's schema
must fail validation. The source's `component` and `props` fields are
validated independently (the discriminator the source names does not
exist on any payload model), so a document tagged markdown with a
form-shaped payload validates successfully. -/
theorem c5_component_props_mismatch_validates :
    parseArtifact "t0" mismatchJson = Except.ok mismatchArtifact ∧
    mismatchArtifact.component = ArtifactType.markdown ∧
    (match mismatchArtifact.props with
     | Props.form _ => true
     | _ => false) = true := by
  exact ⟨rfl, rfl, rfl⟩

/-- Claim C6, counterexample. The claim says a located, brace-balanced
candidate span that fails JSON parsing yields a Malformed result
distinct from NotPresent. The extractor's result type is
`Option Artifact`: on such a text it returns exactly the same value,
`none`, that it returns on artifact-free text, so no distinct Malformed
result exists. -/
theorem c6_no_malformed_result :
    tryParseArtifact "t0" malformedSpanText =
      tryParseArtifact "t0" "no artifact here" ∧
    tryParseArtifact "t0" malformedSpanText = none := by
  exact ⟨rfl, rfl⟩

/-- Claim C6, amended: extraction is two-way, not three-way. For every
text in which a candidate span is located (the discriminator-key
pattern is found by either quoting style and the brace scan delimits a
balanced span) but every decoding of the span fails — it does not parse
as JSON, or what it parses to fails Artifact validation — extraction
returns `none`, the same result as absence, with no reason reported. -/
theorem c6_malformed_and_invalid_yield_none (now text : String)
    (start stop : Nat)
    (hstart : strFind text needleDq = some start ∨
      (strFind text needleDq = none ∧ strFind text needleSq = some start))
    (hscan : braceScan (text.data.drop start) 0 start = some stop)
    (hfail : ∀ data, jsonLoads (strSlice text start stop) = some data →
      exceptOk (parseArtifact now data) = false) :
    tryParseArtifact now text = none := by
  by_cases hempty : text = ""
  · simp [tryParseArtifact, hempty]
  · by_cases hpre : containsSub (toLowerStr text) "artifact"
    · rcases hload : jsonLoads (strSlice text start stop) with _ | data
      · rcases hstart with h1 | ⟨h1, h2⟩
        · simp [tryParseArtifact, hempty, hpre, h1, hscan, hload]
        · simp [tryParseArtifact, hempty, hpre, h1, h2, hscan, hload]
      · have hf := hfail data hload
        rcases hp : parseArtifact now data with e | a
        · rcases hstart with h1 | ⟨h1, h2⟩
          · simp [tryParseArtifact, hempty, hpre, h1, hscan, hload, hp]
            split <;> simp [hp]
          · simp [tryParseArtifact, hempty, hpre, h1, h2, hscan, hload, hp]
            split <;> simp [hp]
        · rw [hp] at hf
          simp [exceptOk] at hf
    · simp [tryParseArtifact, hempty, hpre]

/-- Witness for C6's amended theorem at `schemaInvalidText`: the span
is located at indices 13 to 94, decodes as JSON, and its decoding fails
validation (unknown component), so extraction yields `none`. -/
theorem c6_malformed_and_invalid_yield_none_witness :
    strFind schemaInvalidText needleDq = some 13 ∧
    braceScan (schemaInvalidText.data.drop 13) 0 13 = some 94 ∧
    tryParseArtifact "t0" schemaInvalidText = none := by
  refine ⟨rfl, rfl,
    c6_malformed_and_invalid_yield_none "t0" schemaInvalidText 13 94
      (Or.inl rfl) rfl ?_⟩
  intro data h
  rw [show jsonLoads (strSlice schemaInvalidText 13 94) =
      some (JsonVal.obj
        [("type", JsonVal.str "artifact"), ("id", JsonVal.str "x"),
         ("component", JsonVal.str "fancy"),
         ("props", JsonVal.obj [("content", JsonVal.str "hi")])]) from rfl] at h
  injection h with h2
  rw [← h2]
  rfl

/-- Claim C7, counterexample. The claim says handling input-requested
leaves `pending_route_target` equal to the node id for every node id,
including the empty string. The handler stores the target through
`node_id or None`, so for the empty string the stored target is absent,
not the empty id. -/
theorem c7_empty_node_id_target_absent :
    (handleInputRequested stIdle "").waiting_for_input = true ∧
    (handleInputRequested stIdle "").input_node_id = none ∧
    (handleInputRequested stIdle "").input_node_id ≠ some "" := by
  exact ⟨rfl, rfl, by decide⟩

/-- Claim C7, amended: for every non-empty node id, handling
input-requested flushes any accumulated streaming text as a finalized
agent output line and leaves the session waiting for structured input
with the route target equal to that node id. -/
theorem c7_input_requested_sets_waiting_target (st : ReplState)
    (nodeId : String) (h : nodeId ≠ "") :
    (handleInputRequested st nodeId).waiting_for_input = true ∧
    (handleInputRequested st nodeId).input_node_id = some nodeId ∧
    (handleInputRequested st nodeId).streaming_snapshot = "" ∧
    (handleInputRequested st nodeId).history =
      st.history ++
        (if st.streaming_snapshot ≠ "" then
          [HistLine.agent st.streaming_snapshot]
         else []) := by
  by_cases hs : st.streaming_snapshot = "" <;>
    simp [handleInputRequested, h, hs]

/-- Witness for C7's amended theorem at a concrete state and node id. -/
theorem c7_input_requested_sets_waiting_target_witness :
    "node7" ≠ "" ∧
    ((handleInputRequested stBusy "node7").waiting_for_input = true ∧
     (handleInputRequested stBusy "node7").input_node_id = some "node7" ∧
     (handleInputRequested stBusy "node7").streaming_snapshot = "" ∧
     (handleInputRequested stBusy "node7").history =
       stBusy.history ++
         (if stBusy.streaming_snapshot ≠ "" then
           [HistLine.agent stBusy.streaming_snapshot]
          else [])) := by
  exact ⟨by decide,
    c7_input_requested_sets_waiting_target stBusy "node7" (by decide)⟩

/-- Claim C8: submitting while an execution is in flight (and no input
request is pending) changes nothing but the history, which gains
exactly the transient busy notice, and dispatches no runtime call. -/
theorem c8_busy_submission_rejected (env : RuntimeEnv) (st : ReplState)
    (raw : String) (hexec : st.current_exec_id.isSome = true)
    (hwait : st.waiting_for_input = false) (hne : pyStrip raw ≠ "") :
    onInputSubmitted env st raw =
      ({ st with history := st.history ++ [HistLine.busy] }, []) := by
  match hcur : st.current_exec_id with
  | none => rw [hcur] at hexec; cases hexec
  | some e => simp [onInputSubmitted, hne, hwait, hcur]

/-- Witness for C8 at a concrete busy state. -/
theorem c8_busy_submission_rejected_witness :
    stBusy.current_exec_id.isSome = true ∧
    stBusy.waiting_for_input = false ∧
    pyStrip "hi" ≠ "" ∧
    onInputSubmitted demoEnv stBusy "hi" =
      ({ stBusy with history := stBusy.history ++ [HistLine.busy] }, []) := by
  exact ⟨rfl, rfl, by decide,
    c8_busy_submission_rejected demoEnv stBusy "hi" rfl rfl (by decide)⟩

/-- Claim C9: the case-insensitive pre-filter. Every text not
containing the substring `"artifact"` in lowered form extracts to
`none`, and in particular the empty text and `"no artifact here"`
(which survives the pre-filter but has no candidate span) both extract
to `none`. -/
theorem c9_prefilter_not_present :
    (∀ now t : String,
        containsSub (toLowerStr t) "artifact" = false →
        tryParseArtifact now t = none) ∧
    (∀ now : String, tryParseArtifact now "" = none) ∧
    (∀ now : String, tryParseArtifact now "no artifact here" = none) := by
  refine ⟨fun now t h => ?_, fun now => rfl, fun now => rfl⟩
  simp [tryParseArtifact, h]

/-- Witness for C9's pre-filter branch at a concrete prose text. -/
theorem c9_prefilter_not_present_witness :
    containsSub (toLowerStr "hello world") "artifact" = false ∧
    tryParseArtifact "t0" "hello world" = none := by
  exact ⟨rfl, c9_prefilter_not_present.1 "t0" "hello world" rfl⟩

/-- Claim C10: a submission that is empty or whitespace-only is a
complete no-op in every mode: the state (history included) is returned
unchanged and no runtime call is dispatched. -/
theorem c10_blank_submission_noop (env : RuntimeEnv) (st : ReplState)
    (raw : String) (h : pyStrip raw = "") :
    onInputSubmitted env st raw = (st, []) := by
  simp [onInputSubmitted, h]

/-- Witness for C10 at a whitespace-only submission. -/
theorem c10_blank_submission_noop_witness :
    pyStrip "   " = "" ∧ onInputSubmitted demoEnv stIdle "   " = (stIdle, []) := by
  exact ⟨rfl, c10_blank_submission_noop demoEnv stIdle "   " rfl⟩
